import Mathlib

/-!
Verification of the Pydantic response models in `examples/marimo/models.py`
(repository `ai-visual-test`) against its natural-language specification.

The models are Pydantic v2 `BaseModel`s.  We embed the JSON data that
`model_validate` consumes as an inductive `Json` type (numbers are exact
rationals: JSON numbers are decimal literals), and we embed Pydantic v2
validation semantics for each model:
  * required fields (`field: T`) fail with a `missing` error when absent;
  * optional fields (`Optional[T] = default`) take the default when absent
    and accept an explicit `null` as `None`;
  * `Field(..., ge=lo, le=hi)` bounds fail with an out-of-range error;
  * `int` fields accept integral JSON numbers and integer-literal strings
    (Pydantic lax mode coerces an integral float and an integer-parseable
    string, and rejects a fractional number);
  * unknown fields are ignored (Pydantic v2 default extra equal to ignore);
  * errors for all invalid top-level fields are collected into a list, as
    the Pydantic ValidationError reports every failing location (nested
    models report their innermost field name, flattened).
-/

inductive Json where
  | null : Json
  | bool (b : Bool) : Json
  | num (q : ℚ) : Json
  | str (s : String) : Json
  | arr (xs : List Json) : Json
  | obj (fields : List (String × Json)) : Json

/-- A decoded JSON object: the key/value mapping json.loads of Python
produces for a JSON object (keys are unique in a Python dict). -/
abbrev JObj := List (String × Json)

/-- Key lookup in a decoded JSON object (Python dict access). -/
def lookupJ (p : JObj) (k : String) : Option Json :=
  match p with
  | [] => none
  | (k2, v) :: rest => if k2 = k then some v else lookupJ rest k

/-- The kind of a single Pydantic validation error. -/
inductive ErrKind where
  | missing : ErrKind
  | typeMismatch : ErrKind
  | outOfRange : ErrKind
  | nested : ErrKind
  deriving DecidableEq, Repr

/-- One Pydantic validation error: the offending field and the error kind. -/
structure VErr where
  fieldName : String
  kind : ErrKind
  deriving DecidableEq, Repr

/-- Required field of type `bool`. -/
def reqBoolV (k : String) : Option Json → Except VErr Bool
  | none => .error ⟨k, .missing⟩
  | some (.bool b) => .ok b
  | some _ => .error ⟨k, .typeMismatch⟩

/-- Required field of type `str`. -/
def reqStrV (k : String) : Option Json → Except VErr String
  | none => .error ⟨k, .missing⟩
  | some (.str s) => .ok s
  | some _ => .error ⟨k, .typeMismatch⟩

/-- Required field of type `int`: integral JSON numbers, and integer-literal
strings (Pydantic v2 lax mode coerces an integral number and an
integer-parseable string, and rejects a fractional number). -/
def reqIntV (k : String) : Option Json → Except VErr ℤ
  | none => .error ⟨k, .missing⟩
  | some (.num q) => if q.den = 1 then .ok q.num else .error ⟨k, .typeMismatch⟩
  | some (.str s) =>
      match s.toInt? with
      | some n => .ok n
      | none => .error ⟨k, .typeMismatch⟩
  | some _ => .error ⟨k, .typeMismatch⟩

/-- Field of type `str` with a non-None string default. -/
def strDefaultV (k : String) (d : String) : Option Json → Except VErr String
  | none => .ok d
  | some (.str s) => .ok s
  | some _ => .error ⟨k, .typeMismatch⟩

/-- Field of type `Optional[str]` with default `None`. -/
def optStrV (k : String) : Option Json → Except VErr (Option String)
  | none => .ok none
  | some .null => .ok none
  | some (.str s) => .ok (some s)
  | some _ => .error ⟨k, .typeMismatch⟩

/-- Field of type `Optional[int]` with default `None`: like `reqIntV`,
integer-literal strings are coerced in Pydantic v2 lax mode. -/
def optIntV (k : String) : Option Json → Except VErr (Option ℤ)
  | none => .ok none
  | some .null => .ok none
  | some (.num q) => if q.den = 1 then .ok (some q.num) else .error ⟨k, .typeMismatch⟩
  | some (.str s) =>
      match s.toInt? with
      | some n => .ok (some n)
      | none => .error ⟨k, .typeMismatch⟩
  | some _ => .error ⟨k, .typeMismatch⟩

/-- Field of type `Optional[bool]` with default `d` (either `None` or a boolean). -/
def optBoolV (k : String) (d : Option Bool) : Option Json → Except VErr (Option Bool)
  | none => .ok d
  | some .null => .ok none
  | some (.bool b) => .ok (some b)
  | some _ => .error ⟨k, .typeMismatch⟩

/-- Field of type `Optional[float]` declared `Field(None, ge=lo, le=hi)`. -/
def optFloatInV (k : String) (lo hi : ℚ) : Option Json → Except VErr (Option ℚ)
  | none => .ok none
  | some .null => .ok none
  | some (.num q) =>
      if lo ≤ q ∧ q ≤ hi then .ok (some q) else .error ⟨k, .outOfRange⟩
  | some _ => .error ⟨k, .typeMismatch⟩

/-- Decode a JSON array all of whose elements are strings. -/
def allStrings : List Json → Option (List String)
  | [] => some []
  | .str s :: rest => (allStrings rest).map (s :: ·)
  | _ => none

/-- Field of type `list[str]` declared `Field(default_factory=list)`. -/
def strListV (k : String) : Option Json → Except VErr (List String)
  | none => .ok []
  | some (.arr xs) =>
      match allStrings xs with
      | some l => .ok l
      | none => .error ⟨k, .typeMismatch⟩
  | some _ => .error ⟨k, .typeMismatch⟩

/-- Field of type `Optional[list[str]]` with default `None`. -/
def optStrListV (k : String) : Option Json → Except VErr (Option (List String))
  | none => .ok none
  | some .null => .ok none
  | some (.arr xs) =>
      match allStrings xs with
      | some l => .ok (some l)
      | none => .error ⟨k, .typeMismatch⟩
  | some _ => .error ⟨k, .typeMismatch⟩

/-- Field of type `Optional[dict]`: any JSON object is accepted as-is. -/
def optDictV (k : String) : Option Json → Except VErr (Option JObj)
  | none => .ok none
  | some .null => .ok none
  | some (.obj m) => .ok (some m)
  | some _ => .error ⟨k, .typeMismatch⟩

/-- Field of type `dict` declared `Field(default_factory=dict)`. -/
def dictDefaultV (k : String) : Option Json → Except VErr JObj
  | none => .ok []
  | some (.obj m) => .ok m
  | some _ => .error ⟨k, .typeMismatch⟩

/-- Decode a JSON object all of whose values are numbers. -/
def allNumValues : JObj → Option (List (String × ℚ))
  | [] => some []
  | (k, .num q) :: rest => (allNumValues rest).map ((k, q) :: ·)
  | _ => none

/-- Field of type `Optional[dict[str, float]]` with default `None`. -/
def optNumDictV (k : String) : Option Json → Except VErr (Option (List (String × ℚ)))
  | none => .ok none
  | some .null => .ok none
  | some (.obj m) =>
      match allNumValues m with
      | some l => .ok (some l)
      | none => .error ⟨k, .typeMismatch⟩
  | some _ => .error ⟨k, .typeMismatch⟩

/-- The class `EstimatedCost(BaseModel)` from `models.py`. -/
structure EstimatedCost where
  inputTokens : ℤ
  outputTokens : ℤ
  inputCost : String
  outputCost : String
  totalCost : String
  currency : String
  deriving DecidableEq, Repr

def EstimatedCost.model_validate (m : JObj) : Except VErr EstimatedCost := do
  let inputTokens ← reqIntV "inputTokens" (lookupJ m "inputTokens")
  let outputTokens ← reqIntV "outputTokens" (lookupJ m "outputTokens")
  let inputCost ← reqStrV "inputCost" (lookupJ m "inputCost")
  let outputCost ← reqStrV "outputCost" (lookupJ m "outputCost")
  let totalCost ← reqStrV "totalCost" (lookupJ m "totalCost")
  let currency ← strDefaultV "currency" "USD" (lookupJ m "currency")
  return ⟨inputTokens, outputTokens, inputCost, outputCost, totalCost, currency⟩

def EstimatedCost.model_dump (c : EstimatedCost) : JObj :=
  [("inputTokens", .num c.inputTokens), ("outputTokens", .num c.outputTokens),
   ("inputCost", .str c.inputCost), ("outputCost", .str c.outputCost),
   ("totalCost", .str c.totalCost), ("currency", .str c.currency)]

/-- The class `Viewport(BaseModel)` from `models.py`. -/
structure Viewport where
  width : ℤ
  height : ℤ
  deriving DecidableEq, Repr

def Viewport.model_validate (m : JObj) : Except VErr Viewport := do
  let width ← reqIntV "width" (lookupJ m "width")
  let height ← reqIntV "height" (lookupJ m "height")
  return ⟨width, height⟩

def Viewport.model_dump (v : Viewport) : JObj :=
  [("width", .num v.width), ("height", .num v.height)]

/-- The class `SemanticInfo(BaseModel)` from `models.py`. -/
structure SemanticInfo where
  score : Option ℚ
  issues : List String
  assessment : Option String
  reasoning : String
  brutalistViolations : Option (List String)
  zeroToleranceViolations : Option (List String)
  deriving DecidableEq, Repr

def SemanticInfo.model_validate (m : JObj) : Except VErr SemanticInfo := do
  let score ← optFloatInV "score" 0 10 (lookupJ m "score")
  let issues ← strListV "issues" (lookupJ m "issues")
  let assessment ← optStrV "assessment" (lookupJ m "assessment")
  let reasoning ← reqStrV "reasoning" (lookupJ m "reasoning")
  let brutalistViolations ← optStrListV "brutalistViolations" (lookupJ m "brutalistViolations")
  let zeroToleranceViolations ←
    optStrListV "zeroToleranceViolations" (lookupJ m "zeroToleranceViolations")
  return ⟨score, issues, assessment, reasoning, brutalistViolations, zeroToleranceViolations⟩

/-- Serialize an optional value, `None` becoming JSON `null`. -/
def jOpt (f : α → Json) : Option α → Json
  | none => .null
  | some a => f a

def jStrList (l : List String) : Json := .arr (l.map .str)

def SemanticInfo.model_dump (s : SemanticInfo) : JObj :=
  [("score", jOpt .num s.score), ("issues", jStrList s.issues),
   ("assessment", jOpt .str s.assessment), ("reasoning", .str s.reasoning),
   ("brutalistViolations", jOpt jStrList s.brutalistViolations),
   ("zeroToleranceViolations", jOpt jStrList s.zeroToleranceViolations)]

/-- Field of type `Optional[EstimatedCost]` with default `None`. -/
def optEstimatedCostV (k : String) : Option Json → Except VErr (Option EstimatedCost)
  | none => .ok none
  | some .null => .ok none
  | some (.obj m) => (EstimatedCost.model_validate m).map some
  | some _ => .error ⟨k, .typeMismatch⟩

/-- Field of type `Optional[SemanticInfo]` with default `None`. -/
def optSemanticV (k : String) : Option Json → Except VErr (Option SemanticInfo)
  | none => .ok none
  | some .null => .ok none
  | some (.obj m) => (SemanticInfo.model_validate m).map some
  | some _ => .error ⟨k, .typeMismatch⟩

/-- Field of type `Optional[Viewport]` with default `None`. -/
def optViewportV (k : String) : Option Json → Except VErr (Option Viewport)
  | none => .ok none
  | some .null => .ok none
  | some (.obj m) => (Viewport.model_validate m).map some
  | some _ => .error ⟨k, .typeMismatch⟩

/-- The class `ValidationResult(BaseModel)` from `models.py`, fields in source
order.  `Optional[bool] = False` (`cached`) is an optional boolean whose
default on absence is `False`; an explicit `null` yields `None`. -/
structure ValidationResult where
  enabled : Bool
  provider : String
  score : Option ℚ
  issues : List String
  assessment : Option String
  reasoning : String
  estimatedCost : Option EstimatedCost
  responseTime : ℤ
  cached : Option Bool
  judgment : Option String
  raw : Option JObj
  semantic : Option SemanticInfo
  error : Option String
  message : Option String
  pricing : Option (List (String × ℚ))
  timestamp : Option String
  testName : Option String
  viewport : Option Viewport
  uncertainty : Option ℚ
  confidence : Option ℚ
  screenshotPath : Option String
  selfConsistencyRecommended : Option Bool
  selfConsistencyN : Option ℤ
  selfConsistencyReason : Option String

def chk_enabled (p : JObj) : Except VErr Bool := reqBoolV "enabled" (lookupJ p "enabled")
def chk_provider (p : JObj) : Except VErr String := reqStrV "provider" (lookupJ p "provider")
def chk_score (p : JObj) : Except VErr (Option ℚ) := optFloatInV "score" 0 10 (lookupJ p "score")
def chk_issues (p : JObj) : Except VErr (List String) := strListV "issues" (lookupJ p "issues")
def chk_assessment (p : JObj) : Except VErr (Option String) :=
  optStrV "assessment" (lookupJ p "assessment")
def chk_reasoning (p : JObj) : Except VErr String := reqStrV "reasoning" (lookupJ p "reasoning")
def chk_estimatedCost (p : JObj) : Except VErr (Option EstimatedCost) :=
  optEstimatedCostV "estimatedCost" (lookupJ p "estimatedCost")
def chk_responseTime (p : JObj) : Except VErr ℤ :=
  reqIntV "responseTime" (lookupJ p "responseTime")
def chk_cached (p : JObj) : Except VErr (Option Bool) :=
  optBoolV "cached" (some false) (lookupJ p "cached")
def chk_judgment (p : JObj) : Except VErr (Option String) :=
  optStrV "judgment" (lookupJ p "judgment")
def chk_raw (p : JObj) : Except VErr (Option JObj) := optDictV "raw" (lookupJ p "raw")
def chk_semantic (p : JObj) : Except VErr (Option SemanticInfo) :=
  optSemanticV "semantic" (lookupJ p "semantic")
def chk_error (p : JObj) : Except VErr (Option String) := optStrV "error" (lookupJ p "error")
def chk_message (p : JObj) : Except VErr (Option String) :=
  optStrV "message" (lookupJ p "message")
def chk_pricing (p : JObj) : Except VErr (Option (List (String × ℚ))) :=
  optNumDictV "pricing" (lookupJ p "pricing")
def chk_timestamp (p : JObj) : Except VErr (Option String) :=
  optStrV "timestamp" (lookupJ p "timestamp")
def chk_testName (p : JObj) : Except VErr (Option String) :=
  optStrV "testName" (lookupJ p "testName")
def chk_viewport (p : JObj) : Except VErr (Option Viewport) :=
  optViewportV "viewport" (lookupJ p "viewport")
def chk_uncertainty (p : JObj) : Except VErr (Option ℚ) :=
  optFloatInV "uncertainty" 0 1 (lookupJ p "uncertainty")
def chk_confidence (p : JObj) : Except VErr (Option ℚ) :=
  optFloatInV "confidence" 0 1 (lookupJ p "confidence")
def chk_screenshotPath (p : JObj) : Except VErr (Option String) :=
  optStrV "screenshotPath" (lookupJ p "screenshotPath")
def chk_selfConsistencyRecommended (p : JObj) : Except VErr (Option Bool) :=
  optBoolV "selfConsistencyRecommended" none (lookupJ p "selfConsistencyRecommended")
def chk_selfConsistencyN (p : JObj) : Except VErr (Option ℤ) :=
  optIntV "selfConsistencyN" (lookupJ p "selfConsistencyN")
def chk_selfConsistencyReason (p : JObj) : Except VErr (Option String) :=
  optStrV "selfConsistencyReason" (lookupJ p "selfConsistencyReason")

/-- The one-element error list of a failed field check, empty on success. -/
def errList : Except VErr α → List VErr
  | .ok _ => []
  | .error e => [e]

/-- All field errors of a `ValidationResult` payload, in field order, as
the Pydantic ValidationError collects every failing location. -/
def allErrs (p : JObj) : List VErr :=
  errList (chk_enabled p) ++ errList (chk_provider p) ++ errList (chk_score p) ++
  errList (chk_issues p) ++ errList (chk_assessment p) ++ errList (chk_reasoning p) ++
  errList (chk_estimatedCost p) ++ errList (chk_responseTime p) ++ errList (chk_cached p) ++
  errList (chk_judgment p) ++ errList (chk_raw p) ++ errList (chk_semantic p) ++
  errList (chk_error p) ++ errList (chk_message p) ++ errList (chk_pricing p) ++
  errList (chk_timestamp p) ++ errList (chk_testName p) ++ errList (chk_viewport p) ++
  errList (chk_uncertainty p) ++ errList (chk_confidence p) ++
  errList (chk_screenshotPath p) ++ errList (chk_selfConsistencyRecommended p) ++
  errList (chk_selfConsistencyN p) ++ errList (chk_selfConsistencyReason p)

/-- Validation entry point `ValidationResult.model_validate` on a decoded JSON object: succeeds
with the validated record iff every field check succeeds, else fails with
the list of all field errors.  Unknown keys are ignored (Pydantic v2
default extra equal to ignore). -/
def ValidationResult.model_validate (p : JObj) : Except (List VErr) ValidationResult :=
  match chk_enabled p, chk_provider p, chk_score p, chk_issues p, chk_assessment p,
        chk_reasoning p, chk_estimatedCost p, chk_responseTime p, chk_cached p,
        chk_judgment p, chk_raw p, chk_semantic p, chk_error p, chk_message p,
        chk_pricing p, chk_timestamp p, chk_testName p, chk_viewport p,
        chk_uncertainty p, chk_confidence p, chk_screenshotPath p,
        chk_selfConsistencyRecommended p, chk_selfConsistencyN p,
        chk_selfConsistencyReason p with
  | .ok a1, .ok a2, .ok a3, .ok a4, .ok a5, .ok a6, .ok a7, .ok a8, .ok a9, .ok a10,
    .ok a11, .ok a12, .ok a13, .ok a14, .ok a15, .ok a16, .ok a17, .ok a18, .ok a19,
    .ok a20, .ok a21, .ok a22, .ok a23, .ok a24 =>
      .ok ⟨a1, a2, a3, a4, a5, a6, a7, a8, a9, a10, a11, a12, a13, a14, a15, a16,
           a17, a18, a19, a20, a21, a22, a23, a24⟩
  | _, _, _, _, _, _, _, _, _, _, _, _, _, _, _, _, _, _, _, _, _, _, _, _ =>
      .error (allErrs p)

def jNumDict (l : List (String × ℚ)) : Json := .obj (l.map fun kv => (kv.1, .num kv.2))

/-- Serialization `ValidationResult.model_dump`: back to a JSON mapping, every
field present, `None` as `null` (the Pydantic default model_dump). -/
def ValidationResult.model_dump (v : ValidationResult) : JObj :=
  [("enabled", .bool v.enabled), ("provider", .str v.provider),
   ("score", jOpt .num v.score), ("issues", jStrList v.issues),
   ("assessment", jOpt .str v.assessment), ("reasoning", .str v.reasoning),
   ("estimatedCost", jOpt (fun c => .obj c.model_dump) v.estimatedCost),
   ("responseTime", .num v.responseTime), ("cached", jOpt .bool v.cached),
   ("judgment", jOpt .str v.judgment), ("raw", jOpt .obj v.raw),
   ("semantic", jOpt (fun s => .obj s.model_dump) v.semantic),
   ("error", jOpt .str v.error), ("message", jOpt .str v.message),
   ("pricing", jOpt jNumDict v.pricing), ("timestamp", jOpt .str v.timestamp),
   ("testName", jOpt .str v.testName),
   ("viewport", jOpt (fun w => .obj w.model_dump) v.viewport),
   ("uncertainty", jOpt .num v.uncertainty), ("confidence", jOpt .num v.confidence),
   ("screenshotPath", jOpt .str v.screenshotPath),
   ("selfConsistencyRecommended", jOpt .bool v.selfConsistencyRecommended),
   ("selfConsistencyN", jOpt .num (v.selfConsistencyN.map (Int.cast : ℤ → ℚ))),
   ("selfConsistencyReason", jOpt .str v.selfConsistencyReason)]

/-- The canonical field names of `ValidationResult`, in source order. -/
def vrFieldNames : List String :=
  ["enabled", "provider", "score", "issues", "assessment", "reasoning",
   "estimatedCost", "responseTime", "cached", "judgment", "raw", "semantic",
   "error", "message", "pricing", "timestamp", "testName", "viewport",
   "uncertainty", "confidence", "screenshotPath", "selfConsistencyRecommended",
   "selfConsistencyN", "selfConsistencyReason"]

/-- Required nested-model field: a JSON object validated by `f`. -/
def reqModelV (k : String) (f : JObj → Except VErr α) : Option Json → Except VErr α
  | none => .error ⟨k, .missing⟩
  | some (.obj m) => f m
  | some _ => .error ⟨k, .typeMismatch⟩

/-- Optional nested-model field with default `None`. -/
def optModelV (k : String) (f : JObj → Except VErr α) : Option Json → Except VErr (Option α)
  | none => .ok none
  | some .null => .ok none
  | some (.obj m) => (f m).map some
  | some _ => .error ⟨k, .typeMismatch⟩

/-- Decode a JSON array all of whose elements are objects validated by `f`. -/
def allModels (f : JObj → Except VErr α) : List Json → Option (List α)
  | [] => some []
  | .obj m :: rest =>
      match f m with
      | .ok a => (allModels f rest).map (a :: ·)
      | .error _ => none
  | _ => none

/-- Field of type `list[Model]` declared `Field(default_factory=list)`. -/
def modelListV (k : String) (f : JObj → Except VErr α) : Option Json → Except VErr (List α)
  | none => .ok []
  | some (.arr xs) =>
      match allModels f xs with
      | some l => .ok l
      | none => .error ⟨k, .nested⟩
  | some _ => .error ⟨k, .typeMismatch⟩

/-- Decode a JSON object all of whose values are strings. -/
def allStrValues : JObj → Option (List (String × String))
  | [] => some []
  | (k, .str s) :: rest => (allStrValues rest).map ((k, s) :: ·)
  | _ => none

/-- Decode a JSON object all of whose values are string-valued objects. -/
def allStrDictValues : JObj → Option (List (String × List (String × String)))
  | [] => some []
  | (k, .obj m) :: rest =>
      match allStrValues m with
      | some d => (allStrDictValues rest).map ((k, d) :: ·)
      | none => none
  | _ => none

/-- Field of type `Optional[dict[str, dict[str, str]]]` with default `None`. -/
def optStrDictDictV (k : String) :
    Option Json → Except VErr (Option (List (String × List (String × String))))
  | none => .ok none
  | some .null => .ok none
  | some (.obj m) =>
      match allStrDictValues m with
      | some l => .ok (some l)
      | none => .error ⟨k, .typeMismatch⟩
  | some _ => .error ⟨k, .typeMismatch⟩

/-- The class `Persona(BaseModel)` from `models.py`. -/
structure Persona where
  name : String
  perspective : String
  focus : List String
  deriving DecidableEq, Repr

def Persona.model_validate (m : JObj) : Except VErr Persona := do
  let name ← reqStrV "name" (lookupJ m "name")
  let perspective ← reqStrV "perspective" (lookupJ m "perspective")
  let focus ← strListV "focus" (lookupJ m "focus")
  return ⟨name, perspective, focus⟩

/-- The class `TemporalScreenshot(BaseModel)` from `models.py`. -/
structure TemporalScreenshot where
  path : String
  timestamp : ℤ
  elapsed : ℤ
  step : Option String
  description : Option String
  deriving DecidableEq, Repr

def TemporalScreenshot.model_validate (m : JObj) : Except VErr TemporalScreenshot := do
  let path ← reqStrV "path" (lookupJ m "path")
  let timestamp ← reqIntV "timestamp" (lookupJ m "timestamp")
  let elapsed ← reqIntV "elapsed" (lookupJ m "elapsed")
  let step ← optStrV "step" (lookupJ m "step")
  let description ← optStrV "description" (lookupJ m "description")
  return ⟨path, timestamp, elapsed, step, description⟩

/-- The class `RenderedCode(BaseModel)` from `models.py`. -/
structure RenderedCode where
  html : String
  css : Option String
  criticalCSS : Option (List (String × List (String × String)))
  domStructure : JObj

def RenderedCode.model_validate (m : JObj) : Except VErr RenderedCode := do
  let html ← reqStrV "html" (lookupJ m "html")
  let css ← optStrV "css" (lookupJ m "css")
  let criticalCSS ← optStrDictDictV "criticalCSS" (lookupJ m "criticalCSS")
  let domStructure ← dictDefaultV "domStructure" (lookupJ m "domStructure")
  return ⟨html, css, criticalCSS, domStructure⟩

/-- The class `PerspectiveEvaluation(BaseModel)` from `models.py`.  Its
`evaluation` field is a required nested `ValidationResult`. -/
structure PerspectiveEvaluation where
  persona : Persona
  perspective : Option String
  focus : Option String
  evaluation : ValidationResult

/-- Required field of type `ValidationResult`: a nested-model failure is
collapsed to one error located at the outer field. -/
def reqEvaluationV (k : String) : Option Json → Except VErr ValidationResult
  | none => .error ⟨k, .missing⟩
  | some (.obj m) =>
      match ValidationResult.model_validate m with
      | .ok r => .ok r
      | .error _ => .error ⟨k, .nested⟩
  | some _ => .error ⟨k, .typeMismatch⟩

def PerspectiveEvaluation.model_validate (m : JObj) : Except VErr PerspectiveEvaluation := do
  let persona ← reqModelV "persona" Persona.model_validate (lookupJ m "persona")
  let perspective ← optStrV "perspective" (lookupJ m "perspective")
  let focus ← optStrV "focus" (lookupJ m "focus")
  let evaluation ← reqEvaluationV "evaluation" (lookupJ m "evaluation")
  return ⟨persona, perspective, focus, evaluation⟩

/-- The class `MultiModalValidationResult(BaseModel)` from `models.py`,
fields in source order.  `aggregatedScore` is declared
`Field(None, ge=0, le=10)`. -/
structure MultiModalValidationResult where
  screenshotPath : String
  renderedCode : Option RenderedCode
  gameState : JObj
  temporalScreenshots : List TemporalScreenshot
  perspectives : List PerspectiveEvaluation
  codeValidation : JObj
  aggregatedScore : Option ℚ
  aggregatedIssues : List String
  timestamp : ℤ

def mm_chk_screenshotPath (p : JObj) : Except VErr String :=
  reqStrV "screenshotPath" (lookupJ p "screenshotPath")
def mm_chk_renderedCode (p : JObj) : Except VErr (Option RenderedCode) :=
  optModelV "renderedCode" RenderedCode.model_validate (lookupJ p "renderedCode")
def mm_chk_gameState (p : JObj) : Except VErr JObj :=
  dictDefaultV "gameState" (lookupJ p "gameState")
def mm_chk_temporalScreenshots (p : JObj) : Except VErr (List TemporalScreenshot) :=
  modelListV "temporalScreenshots" TemporalScreenshot.model_validate
    (lookupJ p "temporalScreenshots")
def mm_chk_perspectives (p : JObj) : Except VErr (List PerspectiveEvaluation) :=
  modelListV "perspectives" PerspectiveEvaluation.model_validate (lookupJ p "perspectives")
def mm_chk_codeValidation (p : JObj) : Except VErr JObj :=
  dictDefaultV "codeValidation" (lookupJ p "codeValidation")
def mm_chk_aggregatedScore (p : JObj) : Except VErr (Option ℚ) :=
  optFloatInV "aggregatedScore" 0 10 (lookupJ p "aggregatedScore")
def mm_chk_aggregatedIssues (p : JObj) : Except VErr (List String) :=
  strListV "aggregatedIssues" (lookupJ p "aggregatedIssues")
def mm_chk_timestamp (p : JObj) : Except VErr ℤ :=
  reqIntV "timestamp" (lookupJ p "timestamp")

/-- All field errors of a `MultiModalValidationResult` payload, in field
order. -/
def mmvAllErrs (p : JObj) : List VErr :=
  errList (mm_chk_screenshotPath p) ++ errList (mm_chk_renderedCode p) ++
  errList (mm_chk_gameState p) ++ errList (mm_chk_temporalScreenshots p) ++
  errList (mm_chk_perspectives p) ++ errList (mm_chk_codeValidation p) ++
  errList (mm_chk_aggregatedScore p) ++ errList (mm_chk_aggregatedIssues p) ++
  errList (mm_chk_timestamp p)

/-- Validation entry point `MultiModalValidationResult.model_validate`:
succeeds iff every field check succeeds, else fails with the list of all
field errors. -/
def MultiModalValidationResult.model_validate (p : JObj) :
    Except (List VErr) MultiModalValidationResult :=
  match mm_chk_screenshotPath p, mm_chk_renderedCode p, mm_chk_gameState p,
        mm_chk_temporalScreenshots p, mm_chk_perspectives p, mm_chk_codeValidation p,
        mm_chk_aggregatedScore p, mm_chk_aggregatedIssues p, mm_chk_timestamp p with
  | .ok a1, .ok a2, .ok a3, .ok a4, .ok a5, .ok a6, .ok a7, .ok a8, .ok a9 =>
      .ok ⟨a1, a2, a3, a4, a5, a6, a7, a8, a9⟩
  | _, _, _, _, _, _, _, _, _ => .error (mmvAllErrs p)

/-- The outcome of running json.loads on the stdout text of the external
process, in the Step 3 cell of `basic_validation.py`: either the text is
not valid JSON (json.loads raises JSONDecodeError, reporting a message),
or it decodes to a JSON value. -/
inductive DecodeOutcome where
  | invalid (msg : String) : DecodeOutcome
  | decoded (j : Json) : DecodeOutcome

/-- The `result` value the Step 3 cell of `basic_validation.py` binds after
its inner try/except: either a validated `ValidationResult`, or a Python
dict carrying an error description under the key `error`. -/
inductive StepResult where
  | validated (v : ValidationResult) : StepResult
  | errorDict (msg : String) : StepResult

/-- The inner try/except of the Step 3 cell of `basic_validation.py`
(lines 156-166): `json.loads` then `ValidationResult.model_validate`, with
`ValidationError` and `json.JSONDecodeError` each caught and turned into
an error dict.  `model_validate` on a decoded non-object value also raises
`ValidationError`, which the same handler catches. -/
def step3Validate : DecodeOutcome → StepResult
  | .invalid msg => .errorDict ("JSON parse error: " ++ msg)
  | .decoded (.obj m) =>
      match ValidationResult.model_validate m with
      | .ok v => .validated v
      | .error _ => .errorDict "Validation error"
  | .decoded _ => .errorDict "Validation error"

/-- The example payload of the specification: enabled true, provider
gemini, score 8.2, issues contrast, reasoning clear layout, responseTime
1400 (8.2 is the exact rational 41/5). -/
def c1Payload : JObj :=
  [("enabled", .bool true), ("provider", .str "gemini"), ("score", .num (mkRat 41 5)),
   ("issues", .arr [.str "contrast"]), ("reasoning", .str "clear layout"),
   ("responseTime", .num 1400)]

/-- The validated result of `c1Payload`: input values preserved, absent
optional fields at their defaults. -/
def c1Expected : ValidationResult :=
  ⟨true, "gemini", some (mkRat 41 5), ["contrast"], none, "clear layout", none, 1400,
   some false, none, none, none, none, none, none, none, none, none, none, none,
   none, none, none, none⟩

/-- The disabled-path example payload of the specification: enabled false
plus a message, with provider, reasoning and responseTime all absent. -/
def c2Payload : JObj :=
  [("enabled", .bool false), ("message", .str "API key not configured")]

/-- A payload that is valid except that responseTime is the negative
integer -5. -/
def negPayload : JObj :=
  [("enabled", .bool true), ("provider", .str "gemini"),
   ("reasoning", .str "r"), ("responseTime", .num (-5))]

/-- The result the model accepts for `negPayload`: responseTime -5. -/
def negExpected : ValidationResult :=
  ⟨true, "gemini", none, [], none, "r", none, -5,
   some false, none, none, none, none, none, none, none, none, none, none, none,
   none, none, none, none⟩

/-- A fully valid payload whose score is exactly the boundary 0. -/
def score0Payload : JObj :=
  [("enabled", .bool true), ("provider", .str "gemini"), ("score", .num 0),
   ("reasoning", .str "r"), ("responseTime", .num 1400)]

def score0Expected : ValidationResult :=
  ⟨true, "gemini", some 0, [], none, "r", none, 1400,
   some false, none, none, none, none, none, none, none, none, none, none, none,
   none, none, none, none⟩

/-- A fully valid payload whose score is exactly the boundary 10. -/
def score10Payload : JObj :=
  [("enabled", .bool true), ("provider", .str "gemini"), ("score", .num 10),
   ("reasoning", .str "r"), ("responseTime", .num 1400)]

def score10Expected : ValidationResult :=
  ⟨true, "gemini", some 10, [], none, "r", none, 1400,
   some false, none, none, none, none, none, none, none, none, none, none, none,
   none, none, none, none⟩

/-- A fully valid payload with uncertainty at boundary 0 and confidence at
boundary 1. -/
def uncPayload : JObj :=
  [("enabled", .bool true), ("provider", .str "gemini"),
   ("reasoning", .str "r"), ("responseTime", .num 1400),
   ("uncertainty", .num 0), ("confidence", .num 1)]

def uncExpected : ValidationResult :=
  ⟨true, "gemini", none, [], none, "r", none, 1400,
   some false, none, none, none, none, none, none, none, none, none, some 0, some 1,
   none, none, none, none⟩

/-- A payload with uncertainty numerically out of range (2). -/
def uncBadPayload : JObj :=
  [("enabled", .bool true), ("provider", .str "gemini"),
   ("reasoning", .str "r"), ("responseTime", .num 1400), ("uncertainty", .num 2)]

/-- A payload with score numerically out of range (11). -/
def scoreBadPayload : JObj :=
  [("enabled", .bool true), ("provider", .str "gemini"), ("score", .num 11),
   ("reasoning", .str "r"), ("responseTime", .num 1400)]

/-- A payload with confidence numerically out of range (-1). -/
def confBadPayload : JObj :=
  [("enabled", .bool true), ("provider", .str "gemini"),
   ("reasoning", .str "r"), ("responseTime", .num 1400), ("confidence", .num (-1))]

/-- `c1Payload` extended with the unknown field futureFlag set to true. -/
def futurePayload : JObj := c1Payload ++ [("futureFlag", .bool true)]

/-- A payload for enabled-true with provider absent. -/
def noProviderPayload : JObj :=
  [("enabled", .bool true), ("reasoning", .str "r"), ("responseTime", .num 1400)]

/-- A minimal valid `MultiModalValidationResult` payload with an
aggregatedScore of 7. -/
def mmvPayload : JObj :=
  [("screenshotPath", .str "shot.png"), ("aggregatedScore", .num 7),
   ("timestamp", .num 1700000000000)]

/-- The validated value of `mmvPayload`. -/
def mmvExpected : MultiModalValidationResult :=
  ⟨"shot.png", none, [], [], [], [], some 7, [], 1700000000000⟩

theorem except_bind_ok {α β : Type} {x : Except VErr α} {f : α → Except VErr β} {b : β}
    (h : x >>= f = .ok b) : ∃ a, x = .ok a ∧ f a = .ok b := by
  cases x with
  | ok a => exact ⟨a, rfl, h⟩
  | error e =>
      rw [show ((Except.error e : Except VErr α) >>= f) = .error e from rfl] at h
      cases h

theorem optFloatInV_ok_bounds (k : String) (lo hi : ℚ) (o : Option Json) (r : Option ℚ)
    (h : optFloatInV k lo hi o = .ok r) : ∀ q, r = some q → lo ≤ q ∧ q ≤ hi := by
  intro q hq
  subst hq
  match o, h with
  | none, h => cases h
  | some .null, h => cases h
  | some (.num q2), h =>
      simp only [optFloatInV] at h
      split at h
      · cases h
        assumption
      · cases h
  | some (.bool b), h => cases h
  | some (.str s), h => cases h
  | some (.arr xs), h => cases h
  | some (.obj m), h => cases h

theorem optFloatInV_num_ok (k : String) (lo hi : ℚ) (q : ℚ) (r : Option ℚ)
    (h : optFloatInV k lo hi (some (.num q)) = .ok r) : r = some q := by
  simp only [optFloatInV] at h
  split at h
  · cases h
    rfl
  · cases h

theorem model_validate_ok_inv (p : JObj) (v : ValidationResult)
    (h : ValidationResult.model_validate p = .ok v) :
    chk_enabled p = .ok v.enabled ∧ chk_provider p = .ok v.provider ∧
    chk_score p = .ok v.score ∧ chk_issues p = .ok v.issues ∧
    chk_assessment p = .ok v.assessment ∧ chk_reasoning p = .ok v.reasoning ∧
    chk_estimatedCost p = .ok v.estimatedCost ∧ chk_responseTime p = .ok v.responseTime ∧
    chk_cached p = .ok v.cached ∧ chk_judgment p = .ok v.judgment ∧
    chk_raw p = .ok v.raw ∧ chk_semantic p = .ok v.semantic ∧
    chk_error p = .ok v.error ∧ chk_message p = .ok v.message ∧
    chk_pricing p = .ok v.pricing ∧ chk_timestamp p = .ok v.timestamp ∧
    chk_testName p = .ok v.testName ∧ chk_viewport p = .ok v.viewport ∧
    chk_uncertainty p = .ok v.uncertainty ∧ chk_confidence p = .ok v.confidence ∧
    chk_screenshotPath p = .ok v.screenshotPath ∧
    chk_selfConsistencyRecommended p = .ok v.selfConsistencyRecommended ∧
    chk_selfConsistencyN p = .ok v.selfConsistencyN ∧
    chk_selfConsistencyReason p = .ok v.selfConsistencyReason := by
  unfold ValidationResult.model_validate at h
  split at h
  · cases h
    simp_all
  · cases h

theorem mmv_ok_inv (p : JObj) (v : MultiModalValidationResult)
    (h : MultiModalValidationResult.model_validate p = .ok v) :
    mm_chk_screenshotPath p = .ok v.screenshotPath ∧
    mm_chk_renderedCode p = .ok v.renderedCode ∧
    mm_chk_gameState p = .ok v.gameState ∧
    mm_chk_temporalScreenshots p = .ok v.temporalScreenshots ∧
    mm_chk_perspectives p = .ok v.perspectives ∧
    mm_chk_codeValidation p = .ok v.codeValidation ∧
    mm_chk_aggregatedScore p = .ok v.aggregatedScore ∧
    mm_chk_aggregatedIssues p = .ok v.aggregatedIssues ∧
    mm_chk_timestamp p = .ok v.timestamp := by
  unfold MultiModalValidationResult.model_validate at h
  split at h
  · cases h
    simp_all
  · cases h

theorem mv_err_of_provider (p : JObj) (e : VErr) (h : chk_provider p = .error e) :
    ValidationResult.model_validate p = .error (allErrs p) := by
  unfold ValidationResult.model_validate
  split
  · simp_all
  · rfl

theorem mv_err_of_reasoning (p : JObj) (e : VErr) (h : chk_reasoning p = .error e) :
    ValidationResult.model_validate p = .error (allErrs p) := by
  unfold ValidationResult.model_validate
  split
  · simp_all
  · rfl

theorem mv_err_of_score (p : JObj) (e : VErr) (h : chk_score p = .error e) :
    ValidationResult.model_validate p = .error (allErrs p) := by
  unfold ValidationResult.model_validate
  split
  · simp_all
  · rfl

theorem mv_err_of_uncertainty (p : JObj) (e : VErr) (h : chk_uncertainty p = .error e) :
    ValidationResult.model_validate p = .error (allErrs p) := by
  unfold ValidationResult.model_validate
  split
  · simp_all
  · rfl

theorem mv_err_of_confidence (p : JObj) (e : VErr) (h : chk_confidence p = .error e) :
    ValidationResult.model_validate p = .error (allErrs p) := by
  unfold ValidationResult.model_validate
  split
  · simp_all
  · rfl

theorem mem_allErrs_of_provider (p : JObj) (e : VErr) (h : chk_provider p = .error e) :
    e ∈ allErrs p := by
  simp [allErrs, errList, h]

theorem mem_allErrs_of_reasoning (p : JObj) (e : VErr) (h : chk_reasoning p = .error e) :
    e ∈ allErrs p := by
  simp [allErrs, errList, h]

theorem mem_allErrs_of_responseTime (p : JObj) (e : VErr)
    (h : chk_responseTime p = .error e) : e ∈ allErrs p := by
  simp [allErrs, errList, h]

theorem mem_allErrs_of_score (p : JObj) (e : VErr) (h : chk_score p = .error e) :
    e ∈ allErrs p := by
  simp [allErrs, errList, h]

theorem mem_allErrs_of_uncertainty (p : JObj) (e : VErr) (h : chk_uncertainty p = .error e) :
    e ∈ allErrs p := by
  simp [allErrs, errList, h]

theorem mem_allErrs_of_confidence (p : JObj) (e : VErr) (h : chk_confidence p = .error e) :
    e ∈ allErrs p := by
  simp [allErrs, errList, h]

theorem optStrV_dump (k : String) (o : Option String) :
    optStrV k (some (jOpt .str o)) = .ok o := by cases o <;> rfl

theorem optBoolV_dump (k : String) (d : Option Bool) (o : Option Bool) :
    optBoolV k d (some (jOpt .bool o)) = .ok o := by cases o <;> rfl

theorem optIntV_dump (k : String) (o : Option ℤ) :
    optIntV k (some (jOpt .num (o.map (Int.cast : ℤ → ℚ)))) = .ok o := by
  cases o with
  | none => rfl
  | some n => simp [jOpt, optIntV]

theorem optDictV_dump (k : String) (o : Option JObj) :
    optDictV k (some (jOpt .obj o)) = .ok o := by cases o <;> rfl

theorem allStrings_map (l : List String) : allStrings (l.map .str) = some l := by
  induction l with
  | nil => rfl
  | cons s rest ih => simp [allStrings, ih]

theorem strListV_dump (k : String) (l : List String) :
    strListV k (some (jStrList l)) = .ok l := by
  simp [strListV, jStrList, allStrings_map]

theorem optStrListV_dump (k : String) (o : Option (List String)) :
    optStrListV k (some (jOpt jStrList o)) = .ok o := by
  cases o with
  | none => rfl
  | some l => simp [optStrListV, jOpt, jStrList, allStrings_map]

theorem allNumValues_map (l : List (String × ℚ)) :
    allNumValues (l.map fun kv => (kv.1, .num kv.2)) = some l := by
  induction l with
  | nil => rfl
  | cons kv rest ih => simp [allNumValues, ih]

theorem optNumDictV_dump (k : String) (o : Option (List (String × ℚ))) :
    optNumDictV k (some (jOpt jNumDict o)) = .ok o := by
  cases o with
  | none => rfl
  | some l => simp [optNumDictV, jOpt, jNumDict, allNumValues_map]

theorem optFloatInV_dump (k : String) (lo hi : ℚ) (o : Option ℚ)
    (h : ∀ q, o = some q → lo ≤ q ∧ q ≤ hi) :
    optFloatInV k lo hi (some (jOpt .num o)) = .ok o := by
  cases o with
  | none => rfl
  | some q => simp [optFloatInV, jOpt, h q rfl]

theorem ec_roundtrip (c : EstimatedCost) :
    EstimatedCost.model_validate c.model_dump = .ok c := rfl

theorem viewport_roundtrip (w : Viewport) :
    Viewport.model_validate w.model_dump = .ok w := rfl

theorem si_ok_bounds (m : JObj) (s : SemanticInfo)
    (h : SemanticInfo.model_validate m = .ok s) :
    ∀ q, s.score = some q → 0 ≤ q ∧ q ≤ 10 := by
  unfold SemanticInfo.model_validate at h
  obtain ⟨sc, hsc, h⟩ := except_bind_ok h
  obtain ⟨a2, _, h⟩ := except_bind_ok h
  obtain ⟨a3, _, h⟩ := except_bind_ok h
  obtain ⟨a4, _, h⟩ := except_bind_ok h
  obtain ⟨a5, _, h⟩ := except_bind_ok h
  obtain ⟨a6, _, h⟩ := except_bind_ok h
  have hs : s.score = sc := by
    cases h
    rfl
  rw [hs]
  exact optFloatInV_ok_bounds _ _ _ _ _ hsc

theorem si_roundtrip (s : SemanticInfo) (h : ∀ q, s.score = some q → 0 ≤ q ∧ q ≤ 10) :
    SemanticInfo.model_validate s.model_dump = .ok s := by
  unfold SemanticInfo.model_validate
  rw [show lookupJ s.model_dump "score" = some (jOpt .num s.score) from rfl,
      show lookupJ s.model_dump "issues" = some (jStrList s.issues) from rfl,
      show lookupJ s.model_dump "assessment" = some (jOpt .str s.assessment) from rfl,
      show lookupJ s.model_dump "reasoning" = some (.str s.reasoning) from rfl,
      show lookupJ s.model_dump "brutalistViolations" =
        some (jOpt jStrList s.brutalistViolations) from rfl,
      show lookupJ s.model_dump "zeroToleranceViolations" =
        some (jOpt jStrList s.zeroToleranceViolations) from rfl,
      optFloatInV_dump "score" 0 10 s.score h, strListV_dump, optStrV_dump,
      optStrListV_dump, optStrListV_dump]
  rfl

theorem optEstimatedCostV_dump (k : String) (o : Option EstimatedCost) :
    optEstimatedCostV k (some (jOpt (fun c => .obj c.model_dump) o)) = .ok o := by
  cases o with
  | none => rfl
  | some c => simp [optEstimatedCostV, jOpt, ec_roundtrip, Except.map]

theorem optViewportV_dump (k : String) (o : Option Viewport) :
    optViewportV k (some (jOpt (fun w => .obj w.model_dump) o)) = .ok o := by
  cases o with
  | none => rfl
  | some w => simp [optViewportV, jOpt, viewport_roundtrip, Except.map]

theorem optSemanticV_dump (k : String) (o : Option SemanticInfo)
    (h : ∀ s, o = some s → ∀ q, s.score = some q → 0 ≤ q ∧ q ≤ 10) :
    optSemanticV k (some (jOpt (fun s => .obj s.model_dump) o)) = .ok o := by
  cases o with
  | none => rfl
  | some s => simp [optSemanticV, jOpt, si_roundtrip s (h s rfl), Except.map]

theorem optSemanticV_ok_bounds (k : String) (o : Option Json) (r : Option SemanticInfo)
    (h : optSemanticV k o = .ok r) :
    ∀ s, r = some s → ∀ q, s.score = some q → 0 ≤ q ∧ q ≤ 10 := by
  intro s hs
  subst hs
  match o, h with
  | none, h => cases h
  | some .null, h => cases h
  | some (.bool b), h => cases h
  | some (.num q2), h => cases h
  | some (.str s2), h => cases h
  | some (.arr xs), h => cases h
  | some (.obj m), h =>
      simp only [optSemanticV] at h
      cases hm : SemanticInfo.model_validate m with
      | error e => rw [hm] at h; cases h
      | ok r2 =>
          rw [hm] at h
          rw [show Except.map some (Except.ok r2 : Except VErr SemanticInfo) =
            Except.ok (some r2) from rfl] at h
          cases h
          exact si_ok_bounds m _ hm

theorem chk_enabled_dump (v : ValidationResult) :
    chk_enabled v.model_dump = .ok v.enabled := rfl

theorem chk_provider_dump (v : ValidationResult) :
    chk_provider v.model_dump = .ok v.provider := rfl

theorem chk_score_dump (v : ValidationResult)
    (h : ∀ q, v.score = some q → 0 ≤ q ∧ q ≤ 10) :
    chk_score v.model_dump = .ok v.score :=
  (show chk_score v.model_dump = optFloatInV "score" 0 10 (some (jOpt .num v.score)) from
    rfl).trans (optFloatInV_dump "score" 0 10 v.score h)

theorem chk_issues_dump (v : ValidationResult) :
    chk_issues v.model_dump = .ok v.issues :=
  (show chk_issues v.model_dump = strListV "issues" (some (jStrList v.issues)) from
    rfl).trans (strListV_dump "issues" v.issues)

theorem chk_assessment_dump (v : ValidationResult) :
    chk_assessment v.model_dump = .ok v.assessment :=
  (show chk_assessment v.model_dump =
    optStrV "assessment" (some (jOpt .str v.assessment)) from rfl).trans
    (optStrV_dump "assessment" v.assessment)

theorem chk_reasoning_dump (v : ValidationResult) :
    chk_reasoning v.model_dump = .ok v.reasoning := rfl

theorem chk_estimatedCost_dump (v : ValidationResult) :
    chk_estimatedCost v.model_dump = .ok v.estimatedCost :=
  (show chk_estimatedCost v.model_dump = optEstimatedCostV "estimatedCost"
    (some (jOpt (fun c => .obj c.model_dump) v.estimatedCost)) from rfl).trans
    (optEstimatedCostV_dump "estimatedCost" v.estimatedCost)

theorem chk_responseTime_dump (v : ValidationResult) :
    chk_responseTime v.model_dump = .ok v.responseTime := rfl

theorem chk_cached_dump (v : ValidationResult) :
    chk_cached v.model_dump = .ok v.cached :=
  (show chk_cached v.model_dump =
    optBoolV "cached" (some false) (some (jOpt .bool v.cached)) from rfl).trans
    (optBoolV_dump "cached" (some false) v.cached)

theorem chk_judgment_dump (v : ValidationResult) :
    chk_judgment v.model_dump = .ok v.judgment :=
  (show chk_judgment v.model_dump =
    optStrV "judgment" (some (jOpt .str v.judgment)) from rfl).trans
    (optStrV_dump "judgment" v.judgment)

theorem chk_raw_dump (v : ValidationResult) :
    chk_raw v.model_dump = .ok v.raw :=
  (show chk_raw v.model_dump = optDictV "raw" (some (jOpt .obj v.raw)) from rfl).trans
    (optDictV_dump "raw" v.raw)

theorem chk_semantic_dump (v : ValidationResult)
    (h : ∀ s, v.semantic = some s → ∀ q, s.score = some q → 0 ≤ q ∧ q ≤ 10) :
    chk_semantic v.model_dump = .ok v.semantic :=
  (show chk_semantic v.model_dump = optSemanticV "semantic"
    (some (jOpt (fun s => .obj s.model_dump) v.semantic)) from rfl).trans
    (optSemanticV_dump "semantic" v.semantic h)

theorem chk_error_dump (v : ValidationResult) :
    chk_error v.model_dump = .ok v.error :=
  (show chk_error v.model_dump = optStrV "error" (some (jOpt .str v.error)) from rfl).trans
    (optStrV_dump "error" v.error)

theorem chk_message_dump (v : ValidationResult) :
    chk_message v.model_dump = .ok v.message :=
  (show chk_message v.model_dump =
    optStrV "message" (some (jOpt .str v.message)) from rfl).trans
    (optStrV_dump "message" v.message)

theorem chk_pricing_dump (v : ValidationResult) :
    chk_pricing v.model_dump = .ok v.pricing :=
  (show chk_pricing v.model_dump =
    optNumDictV "pricing" (some (jOpt jNumDict v.pricing)) from rfl).trans
    (optNumDictV_dump "pricing" v.pricing)

theorem chk_timestamp_dump (v : ValidationResult) :
    chk_timestamp v.model_dump = .ok v.timestamp :=
  (show chk_timestamp v.model_dump =
    optStrV "timestamp" (some (jOpt .str v.timestamp)) from rfl).trans
    (optStrV_dump "timestamp" v.timestamp)

theorem chk_testName_dump (v : ValidationResult) :
    chk_testName v.model_dump = .ok v.testName :=
  (show chk_testName v.model_dump =
    optStrV "testName" (some (jOpt .str v.testName)) from rfl).trans
    (optStrV_dump "testName" v.testName)

theorem chk_viewport_dump (v : ValidationResult) :
    chk_viewport v.model_dump = .ok v.viewport :=
  (show chk_viewport v.model_dump = optViewportV "viewport"
    (some (jOpt (fun w => .obj w.model_dump) v.viewport)) from rfl).trans
    (optViewportV_dump "viewport" v.viewport)

theorem chk_uncertainty_dump (v : ValidationResult)
    (h : ∀ q, v.uncertainty = some q → 0 ≤ q ∧ q ≤ 1) :
    chk_uncertainty v.model_dump = .ok v.uncertainty :=
  (show chk_uncertainty v.model_dump =
    optFloatInV "uncertainty" 0 1 (some (jOpt .num v.uncertainty)) from rfl).trans
    (optFloatInV_dump "uncertainty" 0 1 v.uncertainty h)

theorem chk_confidence_dump (v : ValidationResult)
    (h : ∀ q, v.confidence = some q → 0 ≤ q ∧ q ≤ 1) :
    chk_confidence v.model_dump = .ok v.confidence :=
  (show chk_confidence v.model_dump =
    optFloatInV "confidence" 0 1 (some (jOpt .num v.confidence)) from rfl).trans
    (optFloatInV_dump "confidence" 0 1 v.confidence h)

theorem chk_screenshotPath_dump (v : ValidationResult) :
    chk_screenshotPath v.model_dump = .ok v.screenshotPath :=
  (show chk_screenshotPath v.model_dump =
    optStrV "screenshotPath" (some (jOpt .str v.screenshotPath)) from rfl).trans
    (optStrV_dump "screenshotPath" v.screenshotPath)

theorem chk_selfConsistencyRecommended_dump (v : ValidationResult) :
    chk_selfConsistencyRecommended v.model_dump = .ok v.selfConsistencyRecommended :=
  (show chk_selfConsistencyRecommended v.model_dump = optBoolV "selfConsistencyRecommended"
    none (some (jOpt .bool v.selfConsistencyRecommended)) from rfl).trans
    (optBoolV_dump "selfConsistencyRecommended" none v.selfConsistencyRecommended)

theorem chk_selfConsistencyN_dump (v : ValidationResult) :
    chk_selfConsistencyN v.model_dump = .ok v.selfConsistencyN :=
  (show chk_selfConsistencyN v.model_dump = optIntV "selfConsistencyN"
    (some (jOpt .num (v.selfConsistencyN.map (Int.cast : ℤ → ℚ)))) from rfl).trans
    (optIntV_dump "selfConsistencyN" v.selfConsistencyN)

theorem chk_selfConsistencyReason_dump (v : ValidationResult) :
    chk_selfConsistencyReason v.model_dump = .ok v.selfConsistencyReason :=
  (show chk_selfConsistencyReason v.model_dump =
    optStrV "selfConsistencyReason" (some (jOpt .str v.selfConsistencyReason)) from rfl).trans
    (optStrV_dump "selfConsistencyReason" v.selfConsistencyReason)

/-- C8: for every successfully validated ValidationResult `v`, serializing
`v` back to a JSON mapping with `model_dump` and validating that serialized
form again succeeds and yields a result equal to `v` (round-trip
stability).  The model retains no unknown-field side-map (unknown input
fields are ignored), so the dump contains only canonical fields and the
second pass trivially carries no unknown fields. -/
theorem C8_roundtrip_stability (p : JObj) (v : ValidationResult)
    (h : ValidationResult.model_validate p = .ok v) :
    ValidationResult.model_validate v.model_dump = .ok v := by
  obtain ⟨h1, h2, h3, h4, h5, h6, h7, h8, h9, h10, h11, h12, h13, h14, h15, h16,
    h17, h18, h19, h20, h21, h22, h23, h24⟩ := model_validate_ok_inv p v h
  have hsB : ∀ q, v.score = some q → 0 ≤ q ∧ q ≤ 10 :=
    optFloatInV_ok_bounds "score" 0 10 (lookupJ p "score") v.score h3
  have huB : ∀ q, v.uncertainty = some q → 0 ≤ q ∧ q ≤ 1 :=
    optFloatInV_ok_bounds "uncertainty" 0 1 (lookupJ p "uncertainty") v.uncertainty h19
  have hcB : ∀ q, v.confidence = some q → 0 ≤ q ∧ q ≤ 1 :=
    optFloatInV_ok_bounds "confidence" 0 1 (lookupJ p "confidence") v.confidence h20
  have hsemB : ∀ s, v.semantic = some s → ∀ q, s.score = some q → 0 ≤ q ∧ q ≤ 10 :=
    optSemanticV_ok_bounds "semantic" (lookupJ p "semantic") v.semantic h12
  unfold ValidationResult.model_validate
  rw [chk_enabled_dump, chk_provider_dump, chk_score_dump v hsB, chk_issues_dump,
      chk_assessment_dump, chk_reasoning_dump, chk_estimatedCost_dump,
      chk_responseTime_dump, chk_cached_dump, chk_judgment_dump, chk_raw_dump,
      chk_semantic_dump v hsemB, chk_error_dump, chk_message_dump, chk_pricing_dump,
      chk_timestamp_dump, chk_testName_dump, chk_viewport_dump,
      chk_uncertainty_dump v huB, chk_confidence_dump v hcB, chk_screenshotPath_dump,
      chk_selfConsistencyRecommended_dump, chk_selfConsistencyN_dump,
      chk_selfConsistencyReason_dump]


theorem lookupJ_append_ne (p : JObj) (k n : String) (j : Json) (h : n ≠ k) :
    lookupJ (p ++ [(k, j)]) n = lookupJ p n := by
  induction p with
  | nil =>
      simp only [List.nil_append, lookupJ]
      rw [if_neg (fun e => h (e.symm))]
  | cons kv rest ih =>
      obtain ⟨k2, v⟩ := kv
      simp only [List.cons_append, lookupJ, List.append_eq, ih]

/-- C1: the example payload with enabled true, provider gemini, score 8.2,
issues contrast, reasoning clear layout and responseTime 1400 validates
successfully, every given field preserved exactly, and the unstated
optional fields take their defaults: cached false, estimatedCost absent,
uncertainty absent, confidence absent. -/
theorem C1_example_normalizes :
    ValidationResult.model_validate c1Payload = .ok c1Expected ∧
    c1Expected.enabled = true ∧ c1Expected.provider = "gemini" ∧
    c1Expected.score = some 8.2 ∧ c1Expected.issues = ["contrast"] ∧
    c1Expected.reasoning = "clear layout" ∧ c1Expected.responseTime = 1400 ∧
    c1Expected.cached = some false ∧ c1Expected.estimatedCost = none ∧
    c1Expected.uncertainty = none ∧ c1Expected.confidence = none := by
  refine ⟨rfl, rfl, rfl, ?_, rfl, rfl, rfl, rfl, rfl, rfl, rfl⟩
  show some (mkRat 41 5) = some 8.2
  norm_num [Rat.mkRat_eq_div]

/-- C2 counterexample: the payload with enabled false and a message, but
provider, reasoning and responseTime absent, does NOT validate: Pydantic
requires those three fields unconditionally, so validation fails with all
three missing-field errors (the claimed relaxation does not exist in the
model). -/
theorem C2_counterexample :
    ValidationResult.model_validate c2Payload =
      .error [⟨"provider", .missing⟩, ⟨"reasoning", .missing⟩,
              ⟨"responseTime", .missing⟩] := rfl

/-- C2 (amended): for every payload with enabled false that omits provider,
reasoning and responseTime, validation fails, reporting missing-field
errors for all three: their required-ness is NOT relaxed when enabled is
false. -/
theorem C2_enabled_false_still_requires (p : JObj)
    (_h0 : lookupJ p "enabled" = some (.bool false))
    (h1 : lookupJ p "provider" = none)
    (h2 : lookupJ p "reasoning" = none)
    (h3 : lookupJ p "responseTime" = none) :
    ∃ errs, ValidationResult.model_validate p = .error errs ∧
      (⟨"provider", .missing⟩ : VErr) ∈ errs ∧
      (⟨"reasoning", .missing⟩ : VErr) ∈ errs ∧
      (⟨"responseTime", .missing⟩ : VErr) ∈ errs := by
  have hp : chk_provider p = .error ⟨"provider", .missing⟩ := by
    simp [chk_provider, reqStrV, h1]
  have hr : chk_reasoning p = .error ⟨"reasoning", .missing⟩ := by
    simp [chk_reasoning, reqStrV, h2]
  have ht : chk_responseTime p = .error ⟨"responseTime", .missing⟩ := by
    simp [chk_responseTime, reqIntV, h3]
  exact ⟨allErrs p, mv_err_of_provider p _ hp,
    mem_allErrs_of_provider p _ hp, mem_allErrs_of_reasoning p _ hr,
    mem_allErrs_of_responseTime p _ ht⟩

/-- C2 witness: the amended statement applied to the concrete disabled-path
payload. -/
theorem C2_enabled_false_still_requires_witness :
    ∃ errs, ValidationResult.model_validate c2Payload = .error errs ∧
      (⟨"provider", .missing⟩ : VErr) ∈ errs ∧
      (⟨"reasoning", .missing⟩ : VErr) ∈ errs ∧
      (⟨"responseTime", .missing⟩ : VErr) ∈ errs :=
  C2_enabled_false_still_requires c2Payload rfl rfl rfl rfl

/-- C3: for every payload with enabled true in which provider is absent,
validation fails, and the failure identifies the missing required field
provider. -/
theorem C3_missing_provider (p : JObj)
    (_h1 : lookupJ p "enabled" = some (.bool true))
    (h2 : lookupJ p "provider" = none) :
    ∃ errs, ValidationResult.model_validate p = .error errs ∧
      (⟨"provider", .missing⟩ : VErr) ∈ errs := by
  have hp : chk_provider p = .error ⟨"provider", .missing⟩ := by
    simp [chk_provider, reqStrV, h2]
  exact ⟨allErrs p, mv_err_of_provider p _ hp, mem_allErrs_of_provider p _ hp⟩

/-- C3 witness: the statement applied to a concrete enabled payload with
provider absent. -/
theorem C3_missing_provider_witness :
    ∃ errs, ValidationResult.model_validate noProviderPayload = .error errs ∧
      (⟨"provider", .missing⟩ : VErr) ∈ errs :=
  C3_missing_provider noProviderPayload rfl rfl

/-- C4: every payload whose score is numeric and outside [0,10] fails with
an out-of-range error for score; numeric scores are preserved unchanged on
success; and the boundary payloads with score exactly 0 and exactly 10
validate successfully with the score preserved. -/
theorem C4_score_range :
    (∀ p q, lookupJ p "score" = some (.num q) → (q < 0 ∨ 10 < q) →
      ∃ errs, ValidationResult.model_validate p = .error errs ∧
        (⟨"score", .outOfRange⟩ : VErr) ∈ errs) ∧
    (∀ p v q, ValidationResult.model_validate p = .ok v →
      lookupJ p "score" = some (.num q) → v.score = some q) ∧
    ValidationResult.model_validate score0Payload = .ok score0Expected ∧
    score0Expected.score = some 0 ∧
    ValidationResult.model_validate score10Payload = .ok score10Expected ∧
    score10Expected.score = some 10 := by
  refine ⟨?_, ?_, rfl, rfl, rfl, rfl⟩
  · intro p q hl hr
    have hnot : ¬(0 ≤ q ∧ q ≤ 10) := by
      rintro ⟨ha, hb⟩
      rcases hr with h | h
      · linarith
      · linarith
    have hs : chk_score p = .error ⟨"score", .outOfRange⟩ := by
      simp [chk_score, optFloatInV, hl, hnot]
    exact ⟨allErrs p, mv_err_of_score p _ hs, mem_allErrs_of_score p _ hs⟩
  · intro p v q hok hl
    have h3 := (model_validate_ok_inv p v hok).2.2.1
    unfold chk_score at h3
    rw [hl] at h3
    exact optFloatInV_num_ok _ _ _ _ _ h3

/-- C4 witness: the out-of-range branch applied at score 11, and the
preservation branch applied at the boundary payload with score 0. -/
theorem C4_score_range_witness :
    (∃ errs, ValidationResult.model_validate scoreBadPayload = .error errs ∧
      (⟨"score", .outOfRange⟩ : VErr) ∈ errs) ∧
    score0Expected.score = some 0 :=
  ⟨C4_score_range.1 scoreBadPayload 11 rfl (Or.inr (by norm_num)),
   C4_score_range.2.1 score0Payload score0Expected 0 rfl rfl⟩

/-- C5: every payload whose uncertainty or confidence is numeric and
outside [0,1] fails with an out-of-range error for that field; values
inside [0,1] are preserved without rescaling, including at the boundaries
0 and 1. -/
theorem C5_unit_interval_range :
    (∀ p q, lookupJ p "uncertainty" = some (.num q) → (q < 0 ∨ 1 < q) →
      ∃ errs, ValidationResult.model_validate p = .error errs ∧
        (⟨"uncertainty", .outOfRange⟩ : VErr) ∈ errs) ∧
    (∀ p q, lookupJ p "confidence" = some (.num q) → (q < 0 ∨ 1 < q) →
      ∃ errs, ValidationResult.model_validate p = .error errs ∧
        (⟨"confidence", .outOfRange⟩ : VErr) ∈ errs) ∧
    (∀ p v q, ValidationResult.model_validate p = .ok v →
      lookupJ p "uncertainty" = some (.num q) → v.uncertainty = some q) ∧
    (∀ p v q, ValidationResult.model_validate p = .ok v →
      lookupJ p "confidence" = some (.num q) → v.confidence = some q) ∧
    ValidationResult.model_validate uncPayload = .ok uncExpected ∧
    uncExpected.uncertainty = some 0 ∧ uncExpected.confidence = some 1 := by
  refine ⟨?_, ?_, ?_, ?_, rfl, rfl, rfl⟩
  · intro p q hl hr
    have hnot : ¬(0 ≤ q ∧ q ≤ 1) := by
      rintro ⟨ha, hb⟩
      rcases hr with h | h
      · linarith
      · linarith
    have hs : chk_uncertainty p = .error ⟨"uncertainty", .outOfRange⟩ := by
      simp [chk_uncertainty, optFloatInV, hl, hnot]
    exact ⟨allErrs p, mv_err_of_uncertainty p _ hs, mem_allErrs_of_uncertainty p _ hs⟩
  · intro p q hl hr
    have hnot : ¬(0 ≤ q ∧ q ≤ 1) := by
      rintro ⟨ha, hb⟩
      rcases hr with h | h
      · linarith
      · linarith
    have hs : chk_confidence p = .error ⟨"confidence", .outOfRange⟩ := by
      simp [chk_confidence, optFloatInV, hl, hnot]
    exact ⟨allErrs p, mv_err_of_confidence p _ hs, mem_allErrs_of_confidence p _ hs⟩
  · intro p v q hok hl
    have h19 := (model_validate_ok_inv p v hok).2.2.2.2.2.2.2.2.2.2.2.2.2.2.2.2.2.2.1
    unfold chk_uncertainty at h19
    rw [hl] at h19
    exact optFloatInV_num_ok _ _ _ _ _ h19
  · intro p v q hok hl
    have h20 := (model_validate_ok_inv p v hok).2.2.2.2.2.2.2.2.2.2.2.2.2.2.2.2.2.2.2.1
    unfold chk_confidence at h20
    rw [hl] at h20
    exact optFloatInV_num_ok _ _ _ _ _ h20

/-- C5 witness: the out-of-range branches applied at uncertainty 2 and
confidence -1, and preservation at the boundary payload. -/
theorem C5_unit_interval_range_witness :
    (∃ errs, ValidationResult.model_validate uncBadPayload = .error errs ∧
      (⟨"uncertainty", .outOfRange⟩ : VErr) ∈ errs) ∧
    (∃ errs, ValidationResult.model_validate confBadPayload = .error errs ∧
      (⟨"confidence", .outOfRange⟩ : VErr) ∈ errs) ∧
    uncExpected.uncertainty = some 0 :=
  ⟨C5_unit_interval_range.1 uncBadPayload 2 rfl (Or.inr (by norm_num)),
   C5_unit_interval_range.2.1 confBadPayload (-1) rfl (Or.inl (by norm_num)),
   C5_unit_interval_range.2.2.1 uncPayload uncExpected 0 rfl rfl⟩

/-- C6 counterexample: a payload whose responseTime is the negative integer
-5 validates successfully — the model declares responseTime as a plain int
with no non-negativity constraint, so the claim that negative values are
rejected is false. -/
theorem C6_counterexample :
    ValidationResult.model_validate negPayload = .ok negExpected ∧
    negExpected.responseTime = -5 := ⟨rfl, rfl⟩

/-- C6 (amended): a negative integer responseTime does not make validation
fail — whenever validation succeeds on a payload whose responseTime is the
integer n, negative or not, the value n is preserved unchanged, and the
concrete payload with responseTime -5 validates successfully: the model
enforces no non-negativity constraint on responseTime. -/
theorem C6_negative_responseTime_accepted :
    (∀ p v (n : ℤ), ValidationResult.model_validate p = .ok v →
      lookupJ p "responseTime" = some (.num (n : ℚ)) → v.responseTime = n) ∧
    ValidationResult.model_validate negPayload = .ok negExpected ∧
    negExpected.responseTime = -5 := by
  refine ⟨?_, rfl, rfl⟩
  intro p v n h hl
  have h8 := (model_validate_ok_inv p v h).2.2.2.2.2.2.2.1
  unfold chk_responseTime at h8
  rw [hl] at h8
  have hn : reqIntV "responseTime" (some (.num (n : ℚ))) = .ok n := by
    simp [reqIntV]
  rw [hn] at h8
  injection h8 with h9
  exact h9.symm

/-- C6 witness: the preservation branch applied to the concrete
negative-responseTime payload. -/
theorem C6_negative_responseTime_accepted_witness :
    negExpected.responseTime = -5 :=
  C6_negative_responseTime_accepted.1 negPayload negExpected (-5) rfl rfl

/-- C7 counterexample: the payload with the extra unknown field futureFlag
validates successfully, but futureFlag is NOT retained: the validated
result is exactly the one of the payload without the extra field, the
model has no unknown-field side-map, and serializing the result contains
no futureFlag key. -/
theorem C7_counterexample :
    ValidationResult.model_validate futurePayload = .ok c1Expected ∧
    lookupJ c1Expected.model_dump "futureFlag" = none := ⟨rfl, rfl⟩

/-- C7 (amended): an unknown extra field never causes rejection — appending
any non-schema key to a payload leaves the validation outcome unchanged —
but the unknown field is dropped silently (Pydantic v2 default ignores
extras), not retained on the result: there is no opaque side-map, and the
serialized result carries no futureFlag. -/
theorem C7_unknown_field_ignored :
    (∀ p k j, k ∉ vrFieldNames →
      ValidationResult.model_validate (p ++ [(k, j)]) =
        ValidationResult.model_validate p) ∧
    ValidationResult.model_validate futurePayload = .ok c1Expected ∧
    lookupJ c1Expected.model_dump "futureFlag" = none := by
  refine ⟨?_, rfl, rfl⟩
  intro p k j hk
  have hne : ∀ n, n ∈ vrFieldNames → n ≠ k := fun n hn e => hk (e ▸ hn)
  have l1 := lookupJ_append_ne p k "enabled" j (hne "enabled" (by decide))
  have l2 := lookupJ_append_ne p k "provider" j (hne "provider" (by decide))
  have l3 := lookupJ_append_ne p k "score" j (hne "score" (by decide))
  have l4 := lookupJ_append_ne p k "issues" j (hne "issues" (by decide))
  have l5 := lookupJ_append_ne p k "assessment" j (hne "assessment" (by decide))
  have l6 := lookupJ_append_ne p k "reasoning" j (hne "reasoning" (by decide))
  have l7 := lookupJ_append_ne p k "estimatedCost" j (hne "estimatedCost" (by decide))
  have l8 := lookupJ_append_ne p k "responseTime" j (hne "responseTime" (by decide))
  have l9 := lookupJ_append_ne p k "cached" j (hne "cached" (by decide))
  have l10 := lookupJ_append_ne p k "judgment" j (hne "judgment" (by decide))
  have l11 := lookupJ_append_ne p k "raw" j (hne "raw" (by decide))
  have l12 := lookupJ_append_ne p k "semantic" j (hne "semantic" (by decide))
  have l13 := lookupJ_append_ne p k "error" j (hne "error" (by decide))
  have l14 := lookupJ_append_ne p k "message" j (hne "message" (by decide))
  have l15 := lookupJ_append_ne p k "pricing" j (hne "pricing" (by decide))
  have l16 := lookupJ_append_ne p k "timestamp" j (hne "timestamp" (by decide))
  have l17 := lookupJ_append_ne p k "testName" j (hne "testName" (by decide))
  have l18 := lookupJ_append_ne p k "viewport" j (hne "viewport" (by decide))
  have l19 := lookupJ_append_ne p k "uncertainty" j (hne "uncertainty" (by decide))
  have l20 := lookupJ_append_ne p k "confidence" j (hne "confidence" (by decide))
  have l21 := lookupJ_append_ne p k "screenshotPath" j (hne "screenshotPath" (by decide))
  have l22 := lookupJ_append_ne p k "selfConsistencyRecommended" j
    (hne "selfConsistencyRecommended" (by decide))
  have l23 := lookupJ_append_ne p k "selfConsistencyN" j (hne "selfConsistencyN" (by decide))
  have l24 := lookupJ_append_ne p k "selfConsistencyReason" j
    (hne "selfConsistencyReason" (by decide))
  unfold ValidationResult.model_validate allErrs chk_enabled chk_provider chk_score
    chk_issues chk_assessment chk_reasoning chk_estimatedCost chk_responseTime chk_cached
    chk_judgment chk_raw chk_semantic chk_error chk_message chk_pricing chk_timestamp
    chk_testName chk_viewport chk_uncertainty chk_confidence chk_screenshotPath
    chk_selfConsistencyRecommended chk_selfConsistencyN chk_selfConsistencyReason
  rw [l1, l2, l3, l4, l5, l6, l7, l8, l9, l10, l11, l12, l13, l14, l15, l16, l17,
      l18, l19, l20, l21, l22, l23, l24]

/-- C7 witness: the unknown-field-invariance branch applied at the example
payload and the key futureFlag. -/
theorem C7_unknown_field_ignored_witness :
    ValidationResult.model_validate (c1Payload ++ [("futureFlag", Json.bool true)]) =
      ValidationResult.model_validate c1Payload :=
  C7_unknown_field_ignored.1 c1Payload "futureFlag" (Json.bool true) (by decide)

/-- C8 witness: round-trip stability applied to the validated example
payload. -/
theorem C8_roundtrip_stability_witness :
    ValidationResult.model_validate c1Expected.model_dump = .ok c1Expected :=
  C8_roundtrip_stability c1Payload c1Expected rfl

/-- C9: the Step 3 validation cell never propagates an uncaught exception
from its parse step: for every decode outcome of the stdout text — invalid
JSON included — the bound result is either a validated ValidationResult or
an error-dict value; both failure handlers produce values, and the step is
a pure function of its input by construction. -/
theorem C9_no_uncaught_propagation (d : DecodeOutcome) :
    (∃ v, step3Validate d = .validated v) ∨
    (∃ msg, step3Validate d = .errorDict msg) := by
  cases d with
  | invalid msg => exact Or.inr ⟨_, rfl⟩
  | decoded j =>
      cases j with
      | obj m =>
          cases hm : ValidationResult.model_validate m with
          | ok v => exact Or.inl ⟨v, by simp [step3Validate, hm]⟩
          | error e => exact Or.inr ⟨"Validation error", by simp [step3Validate, hm]⟩
      | null => exact Or.inr ⟨_, rfl⟩
      | bool b => exact Or.inr ⟨_, rfl⟩
      | num q => exact Or.inr ⟨_, rfl⟩
      | str s => exact Or.inr ⟨_, rfl⟩
      | arr xs => exact Or.inr ⟨_, rfl⟩

/-- C10: every successfully constructed MultiModalValidationResult whose
aggregatedScore is present has it within [0,10] — the ge=0, le=10 bounds
on the field reject any out-of-range payload at construction. -/
theorem C10_aggregatedScore_in_range (p : JObj) (v : MultiModalValidationResult)
    (h : MultiModalValidationResult.model_validate p = .ok v) :
    ∀ q, v.aggregatedScore = some q → 0 ≤ q ∧ q ≤ 10 := by
  have h7 := (mmv_ok_inv p v h).2.2.2.2.2.2.1
  unfold mm_chk_aggregatedScore at h7
  exact optFloatInV_ok_bounds _ _ _ _ _ h7

/-- C10 witness: the invariant applied to a concrete minimal payload with
aggregatedScore 7. -/
theorem C10_aggregatedScore_in_range_witness : 0 ≤ (7 : ℚ) ∧ (7 : ℚ) ≤ 10 :=
  C10_aggregatedScore_in_range mmvPayload mmvExpected rfl 7 rfl
